import Mathlib

/-!
Shallow embedding of the hyperknow tool-calling orchestrator.

Embedded here, translated from the Python source:
- `MemoryTool.get_knowledge_level` (tools/memory_tool.py),
- `SelectFileTool.select_files_by_titles` (tools/select_file_tool.py),
- the stream-consumption and per-resource attachment logic of
  `ResponseGeneratorTool.generate_response_stream`
  (tools/response_generator_tool.py),
- `DirectorAgent.execute_function` (identical in main.py and app.py),
- the decision loop of `process_query_with_chat` (app.py; the batch handling
  is the same as `process_query` in main.py) and the batch handling of
  `process_query_for_gradio` (app.py).

External collaborators (the Gemini decision engine, the file-upload service,
the streamed generation call) are modeled as explicit function parameters;
the JSON stores are modeled as immutable data loaded before the calls.
-/

namespace HyperKnow

/-- A per-subject record of `memory.json`'s `knowledge_levels`; the source
reads both fields with `.get` defaults, so both may be absent. -/
structure KnowledgeRecord where
  level : Option String
  detailedDescription : Option String
  deriving Repr, DecidableEq

/-- The knowledge store as loaded by `MemoryTool._load_memory`. -/
structure MemoryData where
  userId : Option String
  knowledgeLevels : List (String × KnowledgeRecord)
  deriving Repr, DecidableEq

/-- Python dict lookup on an association list.  JSON objects have unique
keys, so first-match lookup coincides with dict indexing. -/
def dictFind {α : Type} (m : List (String × α)) (k : String) : Option α :=
  (m.find? (fun p => p.1 == k)).map (fun p => p.2)

/-- The `{level, detailed_description}` value built per subject by
`MemoryTool.get_knowledge_level`. -/
structure SubjectInfo where
  level : String
  detailedDescription : String
  deriving Repr, DecidableEq

/-- The dict returned by `MemoryTool.get_knowledge_level`. -/
structure KnowledgeResult where
  userId : String
  subjectsInfo : List (String × SubjectInfo)
  deriving Repr, DecidableEq

/-- The description used for a subject absent from the store:
`f"未找到关于 {subject} 的知识水平信息"`. -/
def notFoundDescription (subject : String) : String :=
  "未找到关于 " ++ subject ++ " 的知识水平信息"

/-- The `subjects_info` entry built for one requested subject: the stored
record when present (with `.get` defaults `"unknown"` and `""`), the fixed
not-found entry otherwise. -/
def subjectEntry (data : MemoryData) (subject : String) :
    String × SubjectInfo :=
  match dictFind data.knowledgeLevels subject with
  | some r =>
    (subject, { level := r.level.getD "unknown"
                detailedDescription := r.detailedDescription.getD "" })
  | none =>
    (subject, { level := "unknown"
                detailedDescription := notFoundDescription subject })

/-- `MemoryTool.get_knowledge_level`: builds `subjects_info` by iterating the
requested subjects.  Duplicate subjects produce identical values, matching
the source's dict overwrite. -/
def get_knowledge_level (data : MemoryData) (subjects : List String) :
    KnowledgeResult :=
  { userId := data.userId.getD "unknown"
    subjectsInfo := subjects.map (subjectEntry data) }

/-- One entry of `metadata.json`'s `files` list; `title`, `file_path` and
`file_uri` are read with mandatory indexing in the source, summary and
topics with `.get` defaults. -/
structure FileInfo where
  title : String
  filePath : String
  fileUri : String
  contentSummary : Option String
  topics : Option (List String)
  deriving Repr, DecidableEq

/-- A `selected_files` entry as built by `select_files_by_titles`. -/
structure SelectedFile where
  title : String
  filePath : String
  fileUri : String
  contentSummary : String
  topics : List String
  deriving Repr, DecidableEq

/-- The dict appended to `selected_files` for a matched store record. -/
def mkSelectedFile (f : FileInfo) : SelectedFile :=
  { title := f.title, filePath := f.filePath, fileUri := f.fileUri
    contentSummary := f.contentSummary.getD ""
    topics := f.topics.getD [] }

/-- Python `str.lower()`, applied character-wise to the underlying
character list (the titles it is applied to are ASCII). -/
def strLower (s : String) : String :=
  ⟨s.data.map Char.toLower⟩

/-- `title_map` lookup: the source builds a dict keyed by `title.lower()`, so
a later file with the same lowered title overwrites an earlier one; lookup
therefore returns the last match. -/
def titleMapFind (files : List FileInfo) (key : String) : Option FileInfo :=
  files.reverse.find? (fun f => strLower f.title == key)

/-- The dict returned by `select_files_by_titles`. -/
structure SelectResult where
  selectedFiles : List SelectedFile
  notFound : List String
  totalSelected : Nat
  deriving Repr, DecidableEq

/-- One iteration of the `for title in titles` loop of
`select_files_by_titles`: a map hit appends the matched record to
`selected_files`, a miss appends the requested title to `not_found`. -/
def selectStep (files : List FileInfo)
    (acc : List SelectedFile × List String) (title : String) :
    List SelectedFile × List String :=
  match titleMapFind files (strLower title) with
  | some f => (acc.1 ++ [mkSelectedFile f], acc.2)
  | none => (acc.1, acc.2 ++ [title])

/-- `SelectFileTool.select_files_by_titles`: case-insensitive title matching
against the store, appending matched records to `selected_files` and
unmatched requested titles to `not_found`; `total_selected` is
`len(selected_files)`. -/
def select_files_by_titles (files : List FileInfo) (titles : List String) :
    SelectResult :=
  let pair := titles.foldl (selectStep files) ([], [])
  { selectedFiles := pair.1, notFound := pair.2
    totalSelected := pair.1.length }

/-- One event observed while consuming `response_stream` inside
`generate_response_stream`: a chunk whose text is appended, or an exception
raised by the iterator. -/
inductive StreamEvent where
  | chunk (text : String)
  | raise (msg : String)
  deriving Repr, DecidableEq

/-- The string assigned on exception:
`f"抱歉，生成响应时出现错误: {e}"`. -/
def streamErrorText (e : String) : String :=
  "抱歉，生成响应时出现错误: " ++ e

/-- The `for chunk in response_stream` loop of `generate_response_stream`
together with its enclosing `try/except`: chunk texts are appended to
`full_response`; when the stream raises, `full_response` is reassigned to
the error text (the accumulator built so far is overwritten, not extended),
and the remaining events are never consumed. -/
def consumeStream : List StreamEvent → String → String
  | [], acc => acc
  | StreamEvent.chunk t :: rest, acc => consumeStream rest (acc ++ t)
  | StreamEvent.raise e :: _, _ => streamErrorText e

/-- Outcome of attempting to attach one selected file in
`generate_response_stream`: the local path exists and the upload succeeds,
the upload raises, or the path is absent/invalid. -/
inductive AttachOutcome where
  | success
  | uploadError (msg : String)
  | missingPath
  deriving Repr, DecidableEq

/-- `ResponseGeneratorTool._format_single_file_context`. -/
def singleFileContext (f : SelectedFile) : String :=
  let c1 := "\n【参考文档: " ++ f.title ++ "】\n"
  let c2 := if f.topics.isEmpty then c1
            else c1 ++ "主题: " ++ String.intercalate ", " f.topics ++ "\n"
  let c3 := if f.contentSummary = "" then c2
            else c2 ++ "内容摘要: " ++ f.contentSummary ++ "\n"
  c3 ++ "\n"

/-- `ResponseGeneratorTool._format_knowledge_level_context`. -/
def knowledgeLevelContext (k : KnowledgeResult) : String :=
  let body := k.subjectsInfo.foldl
    (fun acc p =>
      let line := acc ++ "- " ++ p.1 ++ ": " ++ p.2.level ++ " 水平\n"
      if p.2.detailedDescription = "" then line
      else line ++ "  详情: " ++ p.2.detailedDescription ++ "\n")
    "\n【用户知识水平背景】\n"
  body ++ "\n请根据用户的知识水平，用合适的方式解释概念。\n"

/-- `ResponseGeneratorTool._build_prompt`. -/
def buildPrompt (userQuery : String) (contextParts : List String) : String :=
  let head := if contextParts.isEmpty then ""
    else String.join contextParts ++ "\n" ++
      String.mk (List.replicate 60 (Char.ofNat 45)) ++ "\n\n"
  head ++ "用户问题: " ++ userQuery ++ "\n\n请提供详细、准确、易懂的回答。"

/-- A member of `content_parts`: an uploaded file part
(`types.Part.from_uri`) carrying the attached file's identity, or the
trailing text part. -/
inductive GenPart where
  | filePart (f : SelectedFile)
  | textPart (s : String)
  deriving Repr, DecidableEq

/-- One step of the per-file loop in `generate_response_stream`: a
successful upload appends a file part to `content_parts`; an upload error or
an invalid path prepends that file's textual summary context to the prompt
(`prompt = context + "\n" + prompt`). -/
def attachStep (oracle : SelectedFile → AttachOutcome)
    (acc : List GenPart × String) (f : SelectedFile) :
    List GenPart × String :=
  match oracle f with
  | AttachOutcome.success => (acc.1 ++ [GenPart.filePart f], acc.2)
  | AttachOutcome.uploadError _ => (acc.1, singleFileContext f ++ "\n" ++ acc.2)
  | AttachOutcome.missingPath => (acc.1, singleFileContext f ++ "\n" ++ acc.2)

/-- The generation context chosen by `generate_response_stream`: `parts` is
`content_parts` (uploaded file parts followed by the trailing text prompt)
when the attachment stream path is taken; `usedAttachmentStream = false`
means the conversational chat-session path is taken with `prompt` alone. -/
structure ComposeOutcome where
  parts : List GenPart
  prompt : String
  usedAttachmentStream : Bool
  deriving Repr, DecidableEq

/-- The `context_parts` list: the formatted knowledge block when knowledge
info was passed, empty otherwise. -/
def composeContextParts (knowledge : Option KnowledgeResult) : List String :=
  match knowledge with
  | some k => [knowledgeLevelContext k]
  | none => []

/-- The attachment branch of `generate_response_stream` (taken when
`selected_files` is a non-empty list): run the per-file loop, append the
text prompt to `content_parts`, and route on `len(content_parts) > 1` —
at least one successful upload uses the streamed-attachment path, otherwise
the conversational chat path is used with the accumulated prompt. -/
def composeWithFiles (oracle : SelectedFile → AttachOutcome)
    (prompt0 : String) (fs : List SelectedFile) : ComposeOutcome :=
  let folded := fs.foldl (attachStep oracle) ([], prompt0)
  if 0 < folded.1.length then
    { parts := folded.1 ++ [GenPart.textPart folded.2]
      prompt := folded.2, usedAttachmentStream := true }
  else
    { parts := [GenPart.textPart folded.2]
      prompt := folded.2, usedAttachmentStream := false }

/-- The context-composition phase of `generate_response_stream`: format the
knowledge block (if any) into `context_parts`, build the prompt, then run
the attachment branch; when `selected_files` is `None` or empty, the
conversational chat path is taken directly with the base prompt. -/
def composeGeneration (oracle : SelectedFile → AttachOutcome)
    (userQuery : String) (knowledge : Option KnowledgeResult)
    (selectedFiles : Option (List SelectedFile)) : ComposeOutcome :=
  let prompt0 := buildPrompt userQuery (composeContextParts knowledge)
  match selectedFiles with
  | some fs =>
    if 0 < fs.length then composeWithFiles oracle prompt0 fs
    else
      { parts := [GenPart.textPart prompt0]
        prompt := prompt0, usedAttachmentStream := false }
  | none =>
    { parts := [GenPart.textPart prompt0]
      prompt := prompt0, usedAttachmentStream := false }

/-- A Gemini function call as consumed by `execute_function`: its `name`
plus the argument fields the source reads via `function_call.args.get`; an
absent argument is `none`. -/
structure FunctionCall where
  name : String
  subjects : Option (List String)
  fileTitles : Option (List String)
  userQuery : Option String
  useKnowledgeLevel : Option Bool
  useSelectedFiles : Option Bool
  deriving Repr, DecidableEq

/-- The Python value returned by `execute_function`: a knowledge dict, a
selection dict, the terminal `generate_detailed_response` dict, or `None`
when the call name matches no branch.  `errorRes` is the
`ToolResult{status: Error, message}` shape the spec describes for unknown
tools; it is present so the spec's claim can be stated, and is never
produced by the embedded `execute_function`. -/
inductive ToolOutcome where
  | knowledgeRes (r : KnowledgeResult)
  | selectRes (r : SelectResult)
  | generateRes (response : String) (usedKnowledgeLevel usedFiles : Bool)
      (responseLength : Nat)
  | pyNone
  | errorRes (message : String)
  deriving Repr, DecidableEq

/-- The stores and the generation backend `execute_function` closes over.
`generator` abstracts `response_generator.generate_response_stream`, which
performs network calls; it receives exactly the three arguments the source
passes (query, knowledge info or `None`, selected-files list or `None`). -/
structure ToolEnv where
  memory : MemoryData
  files : List FileInfo
  generator : String → Option KnowledgeResult →
    Option (List SelectedFile) → String

/-- `DirectorAgent.execute_function` (identical logic in main.py and
app.py): dispatch on the call name with `args.get` defaults (`[]` for the
two list arguments, the outer user query for `user_query`, `False` for the
two booleans); `knowledge_info` and `files_info` are passed as `None` unless
the corresponding flag is set; an unrecognized name falls through to
`return None`. -/
def execute_function (env : ToolEnv) (fc : FunctionCall) (userQuery : String)
    (knowledgeLevelResult : Option KnowledgeResult)
    (selectedFilesResult : Option SelectResult) : ToolOutcome :=
  if fc.name = "get_knowledge_level" then
    ToolOutcome.knowledgeRes
      (get_knowledge_level env.memory (fc.subjects.getD []))
  else if fc.name = "select_relevant_files" then
    ToolOutcome.selectRes
      (select_files_by_titles env.files (fc.fileTitles.getD []))
  else if fc.name = "generate_detailed_response" then
    let query := fc.userQuery.getD userQuery
    let useKnowledge := fc.useKnowledgeLevel.getD false
    let useFiles := fc.useSelectedFiles.getD false
    let knowledgeInfo := if useKnowledge then knowledgeLevelResult else none
    let filesInfo := if useFiles then
        selectedFilesResult.map (fun r => r.selectedFiles)
      else none
    let response := env.generator query knowledgeInfo filesInfo
    ToolOutcome.generateRes response useKnowledge useFiles response.length
  else
    ToolOutcome.pyNone

/-- Result of processing one decision batch in the chat-style loops.
`executed` records, in order, the calls actually dispatched to
`execute_function` (instrumentation for the short-circuit property);
`terminalAnswer` is `some` when the batch returned early through
`generate_detailed_response`. -/
structure BatchResult where
  executed : List FunctionCall
  terminalAnswer : Option String
  klr : Option KnowledgeResult
  sfr : Option SelectResult
  responses : List ToolOutcome

/-- The `for function_call in function_calls_list` body of
`process_query_with_chat` in app.py (the same batch structure appears in
`process_query` in main.py): execute each call in arrival order, store the
result under its tool name, and on `generate_detailed_response` return the
payload's `response` immediately — before appending a function response —
so the rest of the batch is never dispatched. -/
def processBatchWithChat (env : ToolEnv) (userQuery : String) :
    List FunctionCall → Option KnowledgeResult → Option SelectResult →
    List FunctionCall → List ToolOutcome → BatchResult
  | [], klr, sfr, ex, rs => ⟨ex, none, klr, sfr, rs⟩
  | fc :: rest, klr, sfr, ex, rs =>
    let result := execute_function env fc userQuery klr sfr
    let ex' := ex ++ [fc]
    if fc.name = "get_knowledge_level" then
      let klr' := match result with
        | ToolOutcome.knowledgeRes r => some r
        | _ => klr
      processBatchWithChat env userQuery rest klr' sfr ex' (rs ++ [result])
    else if fc.name = "select_relevant_files" then
      let sfr' := match result with
        | ToolOutcome.selectRes r => some r
        | _ => sfr
      processBatchWithChat env userQuery rest klr sfr' ex' (rs ++ [result])
    else if fc.name = "generate_detailed_response" then
      let answer := match result with
        | ToolOutcome.generateRes resp _ _ _ => resp
        | _ => ""
      ⟨ex', some answer, klr, sfr, rs⟩
    else
      processBatchWithChat env userQuery rest klr sfr ex' (rs ++ [result])

/-- Mutable state threaded through one batch of
`process_query_for_gradio`. -/
structure GradioState where
  klr : Option KnowledgeResult
  sfr : Option SelectResult
  finalResponse : String
  executed : List FunctionCall

/-- One call of the `for function_call in function_calls_list` body of
`process_query_for_gradio`: execute, record the result under its tool name
(`generate_detailed_response` assigns `final_response`), and continue with
the next call — there is no early return inside this loop. -/
def gradioStep (env : ToolEnv) (userQuery : String) (st : GradioState)
    (fc : FunctionCall) : GradioState :=
  let result := execute_function env fc userQuery st.klr st.sfr
  let ex' := st.executed ++ [fc]
  if fc.name = "get_knowledge_level" then
    { st with
      klr := match result with
        | ToolOutcome.knowledgeRes r => some r
        | _ => st.klr
      executed := ex' }
  else if fc.name = "select_relevant_files" then
    { st with
      sfr := match result with
        | ToolOutcome.selectRes r => some r
        | _ => st.sfr
      executed := ex' }
  else if fc.name = "generate_detailed_response" then
    { st with
      finalResponse := match result with
        | ToolOutcome.generateRes resp _ _ _ => resp
        | _ => st.finalResponse
      executed := ex' }
  else
    { st with executed := ex' }

/-- Result of one batch of `process_query_for_gradio`: every call in the
batch is executed; `terminalFired` is the post-loop
`any(fc.name == "generate_detailed_response" for fc in function_calls_list)`
check that breaks the outer loop. -/
structure GradioBatchResult where
  state : GradioState
  terminalFired : Bool

/-- The whole-batch handling of `process_query_for_gradio`: fold every call
through `gradioStep`, then test whether the batch contained the terminal
tool. -/
def processBatchGradio (env : ToolEnv) (userQuery : String)
    (calls : List FunctionCall) (st0 : GradioState) : GradioBatchResult :=
  { state := calls.foldl (gradioStep env userQuery) st0
    terminalFired :=
      calls.any (fun fc => fc.name == "generate_detailed_response") }

/-- A decision-engine response: `response.text` (the empty string models an
absent/falsy text) and the function calls extracted from its parts. -/
structure ModelResponse where
  text : String
  functionCalls : List FunctionCall
  deriving Repr, DecidableEq

/-- The fallback returned by `process_query_with_chat` when the final
response's text is falsy. -/
def noReplyText : String := "抱歉，我无法生成回复。"

/-- The iteration-ceiling warning returned by `process_query_with_chat`. -/
def iterationLimitText : String := "⚠️ 达到最大迭代次数限制"

/-- `max_iterations = 10`. -/
def maxIterations : Nat := 10

/-- The final state of one `process_query_with_chat` run.  `iterationsRun`
is the value of the `iteration` counter at return; `decisionCalls` counts
the messages sent to the decision engine (instrumentation); `executed`
records every dispatched tool call in order. -/
structure LoopResult where
  answer : String
  iterationsRun : Nat
  decisionCalls : Nat
  executed : List FunctionCall

/-- The `while iteration < max_iterations` loop of
`process_query_with_chat`.  `fuel` equals `max_iterations - iteration`, so
the guard holds exactly when `fuel` is positive; the body first increments
`iteration`, then extracts the batch from the current response, returns the
text (or the fallback) when the batch is empty, processes the batch with the
terminal short-circuit, and otherwise sends the function responses as the
next decision request.  The decision engine is the parameter
`client : Nat → ModelResponse`, giving the response to the n-th message sent
(n = 0 is the initial user query). -/
def chatLoop (env : ToolEnv) (client : Nat → ModelResponse)
    (userQuery : String) :
    Nat → Nat → Nat → ModelResponse → Option KnowledgeResult →
    Option SelectResult → List FunctionCall → LoopResult
  | 0, iteration, sends, _, _, _, ex =>
    ⟨iterationLimitText, iteration, sends, ex⟩
  | fuel + 1, iteration, sends, response, klr, sfr, ex =>
    if response.functionCalls = [] then
      ⟨if response.text = "" then noReplyText else response.text,
        iteration + 1, sends, ex⟩
    else
      let b := processBatchWithChat env userQuery response.functionCalls
        klr sfr ex []
      match b.terminalAnswer with
      | some a => ⟨a, iteration + 1, sends, b.executed⟩
      | none => chatLoop env client userQuery fuel (iteration + 1)
          (sends + 1) (client sends) b.klr b.sfr b.executed

/-- `DirectorAgent.process_query_with_chat` (app.py): the initial
`chat.send_message(user_query)` is decision call 0; the loop then runs with
`iteration = 0` and ceiling `max_iterations = 10`. -/
def process_query_with_chat (env : ToolEnv) (client : Nat → ModelResponse)
    (userQuery : String) : LoopResult :=
  chatLoop env client userQuery maxIterations 0 1 (client 0) none none []

/-! Concrete sample data shared by witnesses and counterexamples. -/

/-- A small knowledge store with one subject. -/
def sampleMemory : MemoryData :=
  { userId := some "u1"
    knowledgeLevels := [("astronomy", ⟨some "beginner", some "基础阶段"⟩)] }

/-- A metadata store containing only `known.pdf`. -/
def sampleFiles : List FileInfo :=
  [{ title := "known.pdf", filePath := "files/known.pdf"
     fileUri := "uri://known", contentSummary := some "太阳概述"
     topics := some ["astronomy"] }]

/-- A concrete tool environment whose generation backend echoes the query. -/
def sampleEnv : ToolEnv :=
  { memory := sampleMemory, files := sampleFiles
    generator := fun q _ _ => q }

/-- A call whose name matches none of the three registered tools. -/
def ghostCall : FunctionCall :=
  { name := "search_web", subjects := none, fileTitles := none
    userQuery := none, useKnowledgeLevel := none, useSelectedFiles := none }

/-- A knowledge-level call (non-terminal). -/
def knowledgeCall : FunctionCall :=
  { name := "get_knowledge_level", subjects := some ["astronomy"]
    fileTitles := none, userQuery := none
    useKnowledgeLevel := none, useSelectedFiles := none }

/-- A file-selection call (non-terminal). -/
def selectCall : FunctionCall :=
  { name := "select_relevant_files", subjects := none
    fileTitles := some ["known.pdf"], userQuery := none
    useKnowledgeLevel := none, useSelectedFiles := none }

/-- A terminal `generate_detailed_response` call. -/
def terminalCall : FunctionCall :=
  { name := "generate_detailed_response", subjects := none
    fileTitles := none, userQuery := some "太阳的内部结构"
    useKnowledgeLevel := some true, useSelectedFiles := some true }

/-- The terminal payload's `response`, when the outcome is the terminal
dict. -/
def generateResponseOf : ToolOutcome → Option String
  | ToolOutcome.generateRes resp _ _ _ => some resp
  | _ => none

/-- The initial per-request state of a `process_query_for_gradio` run
(`knowledge_level_result = None`, `selected_files_result = None`,
`final_response = ""`). -/
def gradioInit : GradioState :=
  { klr := none, sfr := none, finalResponse := "", executed := [] }

/-- A decision-engine stub that always answers with the same non-terminal
tool call and no text. -/
def stubNonTerminalClient : Nat → ModelResponse :=
  fun _ => { text := "", functionCalls := [knowledgeCall] }

/-- A decision-engine stub that always answers with empty text and no tool
calls. -/
def stubEmptyClient : Nat → ModelResponse :=
  fun _ => { text := "", functionCalls := [] }

/-- A decision-engine stub whose first answer is the batch
`[knowledgeCall, terminalCall, selectCall]`. -/
def stubBatchClient : Nat → ModelResponse :=
  fun _ => { text := ""
             functionCalls := [knowledgeCall, terminalCall, selectCall] }

/-- Three selected resources for the partial-failure scenario. -/
def resA : SelectedFile :=
  { title := "A.pdf", filePath := "files/A.pdf", fileUri := "uri://A"
    contentSummary := "甲", topics := ["astronomy"] }

/-- Second resource; its attachment will fail in the witness scenario. -/
def resB : SelectedFile :=
  { title := "B.pdf", filePath := "files/B.pdf", fileUri := "uri://B"
    contentSummary := "乙", topics := ["astronomy"] }

/-- Third resource. -/
def resC : SelectedFile :=
  { title := "C.pdf", filePath := "files/C.pdf", fileUri := "uri://C"
    contentSummary := "丙", topics := ["astronomy"] }

/-- An attachment oracle that fails exactly on `resB` (missing local
file). -/
def oneFailOracle : SelectedFile → AttachOutcome :=
  fun f => if f.title = "B.pdf" then AttachOutcome.missingPath
           else AttachOutcome.success

/-- A decision-engine stub that always answers with non-empty text and no
tool calls. -/
def stubTextClient : Nat → ModelResponse :=
  fun _ => { text := "你好", functionCalls := [] }

/-- The session-state update both batch loops perform after executing one
non-terminal call: the result is stored under its tool name
(`knowledge_level_result` or `selected_files_result`), other names leave
the state unchanged. -/
def stepState (env : ToolEnv) (uq : String)
    (st : Option KnowledgeResult × Option SelectResult)
    (fc : FunctionCall) :
    Option KnowledgeResult × Option SelectResult :=
  let result := execute_function env fc uq st.1 st.2
  if fc.name = "get_knowledge_level" then
    (match result with
      | ToolOutcome.knowledgeRes r => some r
      | _ => st.1, st.2)
  else if fc.name = "select_relevant_files" then
    (st.1, match result with
      | ToolOutcome.selectRes r => some r
      | _ => st.2)
  else (st.1, st.2)

/-- The `result["response"]` access performed on the terminal tool's
payload. -/
def terminalText : ToolOutcome → String
  | ToolOutcome.generateRes resp _ _ _ => resp
  | _ => ""

/-! Helper lemmas. -/

/-- The key of a `subjects_info` entry is the requested subject. -/
theorem subjectEntry_fst (data : MemoryData) (s : String) :
    (subjectEntry data s).1 = s := by
  unfold subjectEntry
  cases dictFind data.knowledgeLevels s <;> rfl

/-- Unrolling the selection fold: `selected_files` collects the map hits in
request order, `not_found` the misses. -/
theorem selectFold_eq (files : List FileInfo) (titles : List String)
    (acc : List SelectedFile × List String) :
    titles.foldl (selectStep files) acc
      = (acc.1 ++ titles.filterMap
            (fun t => (titleMapFind files (strLower t)).map mkSelectedFile),
         acc.2 ++ titles.filter
            (fun t => (titleMapFind files (strLower t)).isNone)) := by
  induction titles generalizing acc with
  | nil => simp
  | cons t ts ih =>
    cases h : titleMapFind files (strLower t) with
    | some f =>
      simp [List.foldl_cons, selectStep, h, ih, List.filterMap_cons,
        List.filter_cons]
    | none =>
      simp [List.foldl_cons, selectStep, h, ih, List.filterMap_cons,
        List.filter_cons]

/-- Characterization of the two lists returned by
`select_files_by_titles`. -/
theorem select_files_spec (files : List FileInfo) (titles : List String) :
    (select_files_by_titles files titles).selectedFiles
        = titles.filterMap
            (fun t => (titleMapFind files (strLower t)).map mkSelectedFile)
    ∧ (select_files_by_titles files titles).notFound
        = titles.filter
            (fun t => (titleMapFind files (strLower t)).isNone) := by
  unfold select_files_by_titles
  rw [selectFold_eq]
  simp

/-- Every requested title lands in exactly one of the two returned lists. -/
theorem select_partition_length (files : List FileInfo)
    (titles : List String) :
    (select_files_by_titles files titles).selectedFiles.length
      + (select_files_by_titles files titles).notFound.length
      = titles.length := by
  have key : ∀ ts : List String,
      (ts.filterMap
          (fun t => (titleMapFind files (strLower t)).map
            mkSelectedFile)).length
        + (ts.filter
            (fun t => (titleMapFind files (strLower t)).isNone)).length
        = ts.length := by
    intro ts
    induction ts with
    | nil => rfl
    | cons t ts ih =>
      cases h : titleMapFind files (strLower t) with
      | some f =>
        simp only [List.filterMap_cons, List.filter_cons, h]
        simp only [Option.map_some', Option.isNone_some, List.length_cons]
        simp only [Bool.false_eq_true, if_false]
        omega
      | none =>
        simp only [List.filterMap_cons, List.filter_cons, h]
        simp only [Option.map_none', Option.isNone_none, List.length_cons,
          if_true]
        omega
  rw [(select_files_spec files titles).1, (select_files_spec files titles).2]
  exact key titles

/-- `find?` returns the unique element satisfying the predicate. -/
theorem find?_eq_some_of_unique {α : Type} (p : α → Bool) (l : List α)
    (a : α) (ha : a ∈ l) (hpa : p a = true)
    (huniq : ∀ b ∈ l, p b = true → b = a) :
    l.find? p = some a := by
  induction l with
  | nil => cases ha
  | cons x xs ih =>
    by_cases hx : p x = true
    · have hxa : x = a := huniq x (List.mem_cons_self x xs) hx
      subst hxa
      exact List.find?_cons_of_pos xs hx
    · have hax : a ≠ x := fun h => hx (h ▸ hpa)
      have ha' : a ∈ xs := by
        rcases List.mem_cons.1 ha with h | h
        · exact absurd h hax
        · exact h
      have huniq' : ∀ b ∈ xs, p b = true → b = a := fun b hb hpb =>
        huniq b (List.mem_cons_of_mem _ hb) hpb
      rw [List.find?_cons_of_neg xs (by simpa using hx)]
      exact ih ha' huniq'

/-- When the lowered stored titles are pairwise distinct, the `title_map`
lookup at a lowered key returns exactly the matching store record. -/
theorem titleMapFind_eq_some (files : List FileInfo) (f : FileInfo)
    (hnd : (files.map (fun g => strLower g.title)).Nodup)
    (hf : f ∈ files) (k : String) (hk : strLower f.title = k) :
    titleMapFind files k = some f := by
  unfold titleMapFind
  apply find?_eq_some_of_unique
  · exact List.mem_reverse.2 hf
  · simp [hk]
  · intro b hb hpb
    have hb' : b ∈ files := List.mem_reverse.1 hb
    have hbk : strLower b.title = k := by simpa using hpb
    exact List.inj_on_of_nodup_map hnd hb' hf (by rw [hbk, hk])

/-- Parts already collected survive the rest of the attachment loop. -/
theorem attachFold_parts_mono (oracle : SelectedFile → AttachOutcome)
    (fs : List SelectedFile) (init : List GenPart × String) (x : GenPart)
    (hx : x ∈ init.1) :
    x ∈ (fs.foldl (attachStep oracle) init).1 := by
  induction fs generalizing init with
  | nil => exact hx
  | cons f fs ih =>
    apply ih
    show x ∈ (attachStep oracle init f).1
    unfold attachStep
    cases oracle f with
    | success => exact List.mem_append_left _ hx
    | uploadError m => exact hx
    | missingPath => exact hx

/-- A block already inside the prompt survives the rest of the attachment
loop (the loop only prepends to the prompt). -/
theorem attachFold_prompt_mono (oracle : SelectedFile → AttachOutcome)
    (fs : List SelectedFile) (init : List GenPart × String) (b : String)
    (h : ∃ pre post, init.2 = pre ++ b ++ post) :
    ∃ pre post, (fs.foldl (attachStep oracle) init).2 = pre ++ b ++ post := by
  induction fs generalizing init with
  | nil => exact h
  | cons f fs ih =>
    apply ih
    rcases h with ⟨pre, post, hp⟩
    show ∃ pre post, (attachStep oracle init f).2 = pre ++ b ++ post
    unfold attachStep
    cases oracle f with
    | success => exact ⟨pre, post, hp⟩
    | uploadError m =>
      refine ⟨singleFileContext f ++ "\n" ++ pre, post, ?_⟩
      show singleFileContext f ++ "\n" ++ init.2 = _
      rw [hp]
      simp [String.append_assoc]
    | missingPath =>
      refine ⟨singleFileContext f ++ "\n" ++ pre, post, ?_⟩
      show singleFileContext f ++ "\n" ++ init.2 = _
      rw [hp]
      simp [String.append_assoc]

/-- A successfully attached file contributes its file part to the fold. -/
theorem attachFold_success_mem (oracle : SelectedFile → AttachOutcome)
    (f : SelectedFile) (fs : List SelectedFile)
    (init : List GenPart × String) (hf : f ∈ fs)
    (hs : oracle f = AttachOutcome.success) :
    GenPart.filePart f ∈ (fs.foldl (attachStep oracle) init).1 := by
  induction fs generalizing init with
  | nil => cases hf
  | cons g gs ih =>
    rw [List.foldl_cons]
    rcases List.mem_cons.1 hf with rfl | hmem
    · apply attachFold_parts_mono
      show GenPart.filePart f ∈ (attachStep oracle init f).1
      unfold attachStep
      rw [hs]
      exact List.mem_append_right _ (List.mem_singleton.2 rfl)
    · exact ih (attachStep oracle init g) hmem

/-- A file whose attachment fails contributes its summary block to the
prompt built by the fold. -/
theorem attachFold_fail_block (oracle : SelectedFile → AttachOutcome)
    (f : SelectedFile) (fs : List SelectedFile)
    (init : List GenPart × String) (hf : f ∈ fs)
    (hs : oracle f ≠ AttachOutcome.success) :
    ∃ pre post, (fs.foldl (attachStep oracle) init).2
      = pre ++ singleFileContext f ++ post := by
  induction fs generalizing init with
  | nil => cases hf
  | cons g gs ih =>
    rw [List.foldl_cons]
    rcases List.mem_cons.1 hf with rfl | hmem
    · apply attachFold_prompt_mono
      unfold attachStep
      cases h2 : oracle f with
      | success => exact absurd h2 hs
      | uploadError m =>
        refine ⟨"", "\n" ++ init.2, ?_⟩
        show singleFileContext f ++ "\n" ++ init.2 = _
        rw [String.empty_append, String.append_assoc]
      | missingPath =>
        refine ⟨"", "\n" ++ init.2, ?_⟩
        show singleFileContext f ++ "\n" ++ init.2 = _
        rw [String.empty_append, String.append_assoc]
    · exact ih (attachStep oracle init g) hmem

/-- When every attachment fails, the fold collects no file parts. -/
theorem attachFold_all_fail (oracle : SelectedFile → AttachOutcome)
    (fs : List SelectedFile) (init : List GenPart × String)
    (h : ∀ f ∈ fs, oracle f ≠ AttachOutcome.success) :
    (fs.foldl (attachStep oracle) init).1 = init.1 := by
  induction fs generalizing init with
  | nil => rfl
  | cons g gs ih =>
    have hg := h g (List.mem_cons_self g gs)
    have hrest : ∀ f ∈ gs, oracle f ≠ AttachOutcome.success := fun f hf =>
      h f (List.mem_cons_of_mem g hf)
    have hstep : (attachStep oracle init g).1 = init.1 := by
      unfold attachStep
      cases h2 : oracle g with
      | success => exact absurd h2 hg
      | uploadError m => rfl
      | missingPath => rfl
    calc (List.foldl (attachStep oracle) (attachStep oracle init g) gs).1
        = (attachStep oracle init g).1 := ih (attachStep oracle init g) hrest
      _ = init.1 := hstep

/-- Per-resource isolation for the attachment branch: successes appear as
file parts, failures appear as summary blocks inside the prompt, the prompt
itself is in the parts, and the stream/chat routing follows whether any
upload succeeded. -/
theorem composeWithFiles_spec (oracle : SelectedFile → AttachOutcome)
    (prompt0 : String) (fs : List SelectedFile) :
    (∀ f ∈ fs, oracle f = AttachOutcome.success →
        GenPart.filePart f ∈ (composeWithFiles oracle prompt0 fs).parts)
    ∧ (∀ f ∈ fs, oracle f ≠ AttachOutcome.success →
        ∃ pre post, (composeWithFiles oracle prompt0 fs).prompt
          = pre ++ singleFileContext f ++ post)
    ∧ GenPart.textPart (composeWithFiles oracle prompt0 fs).prompt
        ∈ (composeWithFiles oracle prompt0 fs).parts
    ∧ ((∀ f ∈ fs, oracle f ≠ AttachOutcome.success) →
        (composeWithFiles oracle prompt0 fs).usedAttachmentStream = false)
    ∧ ((∃ f ∈ fs, oracle f = AttachOutcome.success) →
        (composeWithFiles oracle prompt0 fs).usedAttachmentStream = true) := by
  by_cases hp : 0 < (fs.foldl (attachStep oracle) ([], prompt0)).1.length
  · have hcw : composeWithFiles oracle prompt0 fs =
        { parts := (fs.foldl (attachStep oracle) ([], prompt0)).1
            ++ [GenPart.textPart (fs.foldl (attachStep oracle)
                  ([], prompt0)).2]
          prompt := (fs.foldl (attachStep oracle) ([], prompt0)).2
          usedAttachmentStream := true } := by
      unfold composeWithFiles
      simp [hp]
    rw [hcw]
    refine ⟨?_, ?_, ?_, ?_, ?_⟩
    · intro f hf hs
      exact List.mem_append_left _
        (attachFold_success_mem oracle f fs ([], prompt0) hf hs)
    · intro f hf hs
      exact attachFold_fail_block oracle f fs ([], prompt0) hf hs
    · exact List.mem_append_right _ (List.mem_singleton.2 rfl)
    · intro hall
      exfalso
      rw [attachFold_all_fail oracle fs ([], prompt0) hall] at hp
      simp at hp
    · intro _
      rfl
  · have hcw : composeWithFiles oracle prompt0 fs =
        { parts := [GenPart.textPart (fs.foldl (attachStep oracle)
            ([], prompt0)).2]
          prompt := (fs.foldl (attachStep oracle) ([], prompt0)).2
          usedAttachmentStream := false } := by
      unfold composeWithFiles
      simp [hp]
    have h0 : (fs.foldl (attachStep oracle) ([], prompt0)).1 = [] :=
      List.length_eq_zero.1 (Nat.eq_zero_of_not_pos hp)
    rw [hcw]
    refine ⟨?_, ?_, ?_, ?_, ?_⟩
    · intro f hf hs
      exfalso
      have hmem := attachFold_success_mem oracle f fs ([], prompt0) hf hs
      rw [h0] at hmem
      cases hmem
    · intro f hf hs
      exact attachFold_fail_block oracle f fs ([], prompt0) hf hs
    · exact List.mem_singleton.2 rfl
    · intro _
      rfl
    · rintro ⟨f, hf, hs⟩
      exfalso
      have hmem := attachFold_success_mem oracle f fs ([], prompt0) hf hs
      rw [h0] at hmem
      cases hmem

/-- Processing a non-terminal call continues with the rest of the batch,
the updated session state, and the call recorded as executed. -/
theorem processBatchWithChat_cons_nonterminal (env : ToolEnv) (uq : String)
    (fc : FunctionCall) (rest : List FunctionCall)
    (klr : Option KnowledgeResult) (sfr : Option SelectResult)
    (ex : List FunctionCall) (rs : List ToolOutcome)
    (hfc : fc.name ≠ "generate_detailed_response") :
    processBatchWithChat env uq (fc :: rest) klr sfr ex rs
      = processBatchWithChat env uq rest
          (stepState env uq (klr, sfr) fc).1
          (stepState env uq (klr, sfr) fc).2
          (ex ++ [fc]) (rs ++ [execute_function env fc uq klr sfr]) := by
  by_cases h1 : fc.name = "get_knowledge_level"
  · simp [processBatchWithChat, stepState, h1]
  · by_cases h2 : fc.name = "select_relevant_files"
    · simp [processBatchWithChat, stepState, h1, h2]
    · simp [processBatchWithChat, stepState, h1, h2, hfc]

/-- Processing the terminal call returns its payload's response at once:
the rest of the batch is not visited. -/
theorem processBatchWithChat_cons_terminal (env : ToolEnv) (uq : String)
    (fc : FunctionCall) (rest : List FunctionCall)
    (klr : Option KnowledgeResult) (sfr : Option SelectResult)
    (ex : List FunctionCall) (rs : List ToolOutcome)
    (hT : fc.name = "generate_detailed_response") :
    processBatchWithChat env uq (fc :: rest) klr sfr ex rs
      = ⟨ex ++ [fc],
         some (terminalText (execute_function env fc uq klr sfr)),
         klr, sfr, rs⟩ := by
  have h1 : fc.name ≠ "get_knowledge_level" := by
    rw [hT]; decide
  have h2 : fc.name ≠ "select_relevant_files" := by
    rw [hT]; decide
  simp [processBatchWithChat, terminalText, h1, h2, hT]

/-- A batch with no terminal call never short-circuits. -/
theorem processBatchWithChat_no_terminal (env : ToolEnv) (uq : String)
    (calls : List FunctionCall) (klr : Option KnowledgeResult)
    (sfr : Option SelectResult) (ex : List FunctionCall)
    (rs : List ToolOutcome)
    (h : ∀ fc ∈ calls, fc.name ≠ "generate_detailed_response") :
    (processBatchWithChat env uq calls klr sfr ex rs).terminalAnswer
      = none := by
  induction calls generalizing klr sfr ex rs with
  | nil => rfl
  | cons fc rest ih =>
    have hfc := h fc (List.mem_cons_self fc rest)
    have hrest : ∀ c ∈ rest, c.name ≠ "generate_detailed_response" :=
      fun c hc => h c (List.mem_cons_of_mem fc hc)
    rw [processBatchWithChat_cons_nonterminal env uq fc rest klr sfr ex rs
      hfc]
    exact ih _ _ _ _ hrest

/-- One non-terminal `process_query_for_gradio` step: state updated, the
call recorded, `final_response` untouched. -/
theorem gradioStep_nonterminal (env : ToolEnv) (uq : String)
    (st : GradioState) (fc : FunctionCall)
    (hfc : fc.name ≠ "generate_detailed_response") :
    gradioStep env uq st fc
      = { klr := (stepState env uq (st.klr, st.sfr) fc).1
          sfr := (stepState env uq (st.klr, st.sfr) fc).2
          finalResponse := st.finalResponse
          executed := st.executed ++ [fc] } := by
  by_cases h1 : fc.name = "get_knowledge_level"
  · simp [gradioStep, stepState, h1]
  · by_cases h2 : fc.name = "select_relevant_files"
    · simp [gradioStep, stepState, h1, h2]
    · simp [gradioStep, stepState, h1, h2, hfc]

/-- One terminal `process_query_for_gradio` step: `final_response` is set
to the payload's response and the loop continues with the next call. -/
theorem gradioStep_terminal (env : ToolEnv) (uq : String)
    (st : GradioState) (fc : FunctionCall)
    (hT : fc.name = "generate_detailed_response") :
    gradioStep env uq st fc
      = { st with
          finalResponse :=
            terminalText (execute_function env fc uq st.klr st.sfr)
          executed := st.executed ++ [fc] } := by
  have h1 : fc.name ≠ "get_knowledge_level" := by
    rw [hT]; decide
  have h2 : fc.name ≠ "select_relevant_files" := by
    rw [hT]; decide
  simp [gradioStep, execute_function, terminalText, h1, h2, hT]

/-- The `iteration` counter never exceeds `iteration + fuel`, hence the
loop respects the ceiling. -/
theorem chatLoop_iterations_le (env : ToolEnv)
    (client : Nat → ModelResponse) (uq : String) :
    ∀ (fuel iteration sends : Nat) (resp : ModelResponse)
      (klr : Option KnowledgeResult) (sfr : Option SelectResult)
      (ex : List FunctionCall),
      (chatLoop env client uq fuel iteration sends resp klr
          sfr ex).iterationsRun
        ≤ iteration + fuel := by
  intro fuel
  induction fuel with
  | zero =>
    intro iteration sends resp klr sfr ex
    exact Nat.le_refl _
  | succ fuel ih =>
    intro iteration sends resp klr sfr ex
    by_cases hc : resp.functionCalls = []
    · simp only [chatLoop, if_pos hc]
      omega
    · simp only [chatLoop, if_neg hc]
      cases hta : (processBatchWithChat env uq resp.functionCalls klr sfr
          ex []).terminalAnswer with
      | some a =>
        simp only
        omega
      | none =>
        simp only
        have := ih (iteration + 1) (sends + 1) (client sends)
          (processBatchWithChat env uq resp.functionCalls klr sfr ex []).klr
          (processBatchWithChat env uq resp.functionCalls klr sfr ex []).sfr
          (processBatchWithChat env uq resp.functionCalls klr sfr
            ex []).executed
        omega

/-- Against a decision client that always returns non-terminal tool calls,
the loop burns all its fuel and ends with the iteration-limit warning; each
iteration of the body also sends one more decision message, so the warning
is returned only after `sends + fuel` total decision calls. -/
theorem chatLoop_stub (env : ToolEnv) (client : Nat → ModelResponse)
    (uq : String)
    (hstub : ∀ n, (client n).functionCalls ≠ []
      ∧ ∀ fc ∈ (client n).functionCalls,
          fc.name ≠ "generate_detailed_response") :
    ∀ (fuel iteration sends : Nat) (resp : ModelResponse)
      (klr : Option KnowledgeResult) (sfr : Option SelectResult)
      (ex : List FunctionCall),
      resp.functionCalls ≠ [] →
      (∀ fc ∈ resp.functionCalls,
        fc.name ≠ "generate_detailed_response") →
      (chatLoop env client uq fuel iteration sends resp klr sfr ex).answer
          = iterationLimitText
      ∧ (chatLoop env client uq fuel iteration sends resp klr
          sfr ex).iterationsRun = iteration + fuel
      ∧ (chatLoop env client uq fuel iteration sends resp klr
          sfr ex).decisionCalls = sends + fuel := by
  intro fuel
  induction fuel with
  | zero =>
    intro iteration sends resp klr sfr ex hne hnt
    exact ⟨rfl, rfl, rfl⟩
  | succ fuel ih =>
    intro iteration sends resp klr sfr ex hne hnt
    have hta := processBatchWithChat_no_terminal env uq resp.functionCalls
      klr sfr ex [] hnt
    simp only [chatLoop, if_neg hne, hta]
    have hrec := ih (iteration + 1) (sends + 1) (client sends)
      (processBatchWithChat env uq resp.functionCalls klr sfr ex []).klr
      (processBatchWithChat env uq resp.functionCalls klr sfr ex []).sfr
      (processBatchWithChat env uq resp.functionCalls klr sfr ex []).executed
      (hstub sends).1 (hstub sends).2
    exact ⟨hrec.1, by omega, by omega⟩

/-! Claim theorems. -/

/-- C7 (confirmed): resource attachment is attempted per resource
independently — every successfully uploaded resource appears as a file part
of the composed context, every failing resource (missing file or upload
error) is degraded to its textual summary block inside the prompt (which is
itself part of the context), so the context contains content for every
selected resource; when all resources fail to attach the composer takes the
conversational (non-attachment) path, and when at least one attaches it
uses the streamed-attachment path. -/
theorem c7_attachment_isolation (oracle : SelectedFile → AttachOutcome)
    (uq : String) (knowledge : Option KnowledgeResult)
    (fs : List SelectedFile) :
    (∀ f ∈ fs, oracle f = AttachOutcome.success →
        GenPart.filePart f
          ∈ (composeGeneration oracle uq knowledge (some fs)).parts)
    ∧ (∀ f ∈ fs, oracle f ≠ AttachOutcome.success →
        ∃ pre post, (composeGeneration oracle uq knowledge (some fs)).prompt
          = pre ++ singleFileContext f ++ post)
    ∧ GenPart.textPart (composeGeneration oracle uq knowledge (some fs)).prompt
        ∈ (composeGeneration oracle uq knowledge (some fs)).parts
    ∧ ((∀ f ∈ fs, oracle f ≠ AttachOutcome.success) →
        (composeGeneration oracle uq knowledge
          (some fs)).usedAttachmentStream = false)
    ∧ ((∃ f ∈ fs, oracle f = AttachOutcome.success) →
        (composeGeneration oracle uq knowledge
          (some fs)).usedAttachmentStream = true) := by
  cases fs with
  | nil =>
    have hcg : composeGeneration oracle uq knowledge (some []) =
        { parts := [GenPart.textPart
            (buildPrompt uq (composeContextParts knowledge))]
          prompt := buildPrompt uq (composeContextParts knowledge)
          usedAttachmentStream := false } := by
      unfold composeGeneration
      simp
    rw [hcg]
    refine ⟨?_, ?_, List.mem_singleton.2 rfl, fun _ => rfl, ?_⟩
    · intro f hf
      exact absurd hf (List.not_mem_nil f)
    · intro f hf
      exact absurd hf (List.not_mem_nil f)
    · rintro ⟨f, hf, _⟩
      exact absurd hf (List.not_mem_nil f)
  | cons g gs =>
    have hcg : composeGeneration oracle uq knowledge (some (g :: gs)) =
        composeWithFiles oracle
          (buildPrompt uq (composeContextParts knowledge)) (g :: gs) := by
      unfold composeGeneration
      simp
    rw [hcg]
    exact composeWithFiles_spec oracle
      (buildPrompt uq (composeContextParts knowledge)) (g :: gs)

/-- Witness for C7: with three resources of which exactly `resB` fails to
attach, the composed context holds file parts for `resA` and `resC`, the
summary block for `resB` inside the prompt, uses the streamed-attachment
path, and consists of exactly those three parts. -/
theorem c7_attachment_isolation_witness :
    GenPart.filePart resA
      ∈ (composeGeneration oneFailOracle "太阳" none
          (some [resA, resB, resC])).parts
    ∧ GenPart.filePart resC
      ∈ (composeGeneration oneFailOracle "太阳" none
          (some [resA, resB, resC])).parts
    ∧ (∃ pre post,
        (composeGeneration oneFailOracle "太阳" none
          (some [resA, resB, resC])).prompt
          = pre ++ singleFileContext resB ++ post)
    ∧ (composeGeneration oneFailOracle "太阳" none
        (some [resA, resB, resC])).usedAttachmentStream = true
    ∧ (composeGeneration oneFailOracle "太阳" none
        (some [resA, resB, resC])).parts
      = [GenPart.filePart resA, GenPart.filePart resC,
         GenPart.textPart (composeGeneration oneFailOracle "太阳" none
           (some [resA, resB, resC])).prompt] := by
  refine ⟨?_, ?_, ?_, ?_, ?_⟩
  · exact (c7_attachment_isolation oneFailOracle "太阳" none
      [resA, resB, resC]).1 resA (by decide) (by decide)
  · exact (c7_attachment_isolation oneFailOracle "太阳" none
      [resA, resB, resC]).1 resC (by decide) (by decide)
  · exact (c7_attachment_isolation oneFailOracle "太阳" none
      [resA, resB, resC]).2.1 resB (by decide) (by decide)
  · exact (c7_attachment_isolation oneFailOracle "太阳" none
      [resA, resB, resC]).2.2.2.2 ⟨resA, by decide, by decide⟩
  · decide

/-- C6 (confirmed): document selection partitions the requested titles
without failing — `selected_files` collects, in request order, the store
record matched (case-insensitively) by each requested title, `not_found`
collects the unmatched titles, `total_selected` equals the length of
`selected_files`, and the two lists together account for every requested
title; in particular, selecting `["known.pdf", "missing.pdf"]` against a
store containing only `known.pdf` returns one selected file and
`not_found = ["missing.pdf"]`. -/
theorem c6_selection_partitions (files : List FileInfo)
    (titles : List String) :
    ((select_files_by_titles files titles).selectedFiles
        = titles.filterMap
            (fun t => (titleMapFind files (strLower t)).map mkSelectedFile)
    ∧ (select_files_by_titles files titles).notFound
        = titles.filter (fun t => (titleMapFind files (strLower t)).isNone)
    ∧ (select_files_by_titles files titles).totalSelected
        = (select_files_by_titles files titles).selectedFiles.length
    ∧ (select_files_by_titles files titles).selectedFiles.length
        + (select_files_by_titles files titles).notFound.length
        = titles.length)
    ∧ select_files_by_titles sampleFiles ["known.pdf", "missing.pdf"]
        = ⟨[⟨"known.pdf", "files/known.pdf", "uri://known", "太阳概述",
              ["astronomy"]⟩], ["missing.pdf"], 1⟩ := by
  refine ⟨⟨(select_files_spec files titles).1,
    (select_files_spec files titles).2, rfl,
    select_partition_length files titles⟩, by decide⟩

/-- C9 (confirmed): title matching is case-insensitive — when the lowered
stored titles are distinct, a requested title whose lowered form equals the
lowered form of a stored title selects that store record (the entry carries
the store's original fields, built by `mkSelectedFile`), and the requested
title is not reported in `not_found`. -/
theorem c9_case_insensitive (files : List FileInfo) (titles : List String)
    (t : String) (f : FileInfo)
    (hnd : (files.map (fun g => strLower g.title)).Nodup)
    (ht : t ∈ titles) (hf : f ∈ files)
    (heq : strLower f.title = (strLower t)) :
    mkSelectedFile f ∈ (select_files_by_titles files titles).selectedFiles
    ∧ t ∉ (select_files_by_titles files titles).notFound := by
  have hfind : titleMapFind files (strLower t) = some f :=
    titleMapFind_eq_some files f hnd hf (strLower t) heq
  rcases select_files_spec files titles with ⟨h1, h2⟩
  constructor
  · rw [h1]
    exact List.mem_filterMap.2 ⟨t, ht, by rw [hfind]; rfl⟩
  · rw [h2]
    intro hmem
    have hp := (List.mem_filter.1 hmem).2
    rw [hfind] at hp
    simp at hp

/-- Witness for C9: requesting `"KNOWN.PDF"` against the store containing
`known.pdf` selects the stored record and reports nothing as not found. -/
theorem c9_case_insensitive_witness :
    mkSelectedFile ⟨"known.pdf", "files/known.pdf", "uri://known",
        some "太阳概述", some ["astronomy"]⟩
      ∈ (select_files_by_titles sampleFiles ["KNOWN.PDF"]).selectedFiles
    ∧ "KNOWN.PDF" ∉ (select_files_by_titles sampleFiles
        ["KNOWN.PDF"]).notFound :=
  c9_case_insensitive sampleFiles ["KNOWN.PDF"] "KNOWN.PDF"
    ⟨"known.pdf", "files/known.pdf", "uri://known", some "太阳概述",
      some ["astronomy"]⟩
    (by decide) (by decide) (by decide) (by decide)

/-- C3, counterexample to the claim as stated: consuming the stream
`[chunk "abc", raise "boom"]` yields exactly the error text; the text
`"abc"` accumulated before the failure is not a prefix of the returned
string (its first three characters differ from it), and the returned string
differs from the accumulated text with the error notice appended — the
partial output is discarded, not kept. -/
theorem c3_counterexample :
    consumeStream [StreamEvent.chunk "abc", StreamEvent.raise "boom"] ""
        = streamErrorText "boom"
    ∧ (consumeStream [StreamEvent.chunk "abc", StreamEvent.raise "boom"]
          "").data.take 3 ≠ "abc".data
    ∧ streamErrorText "boom" ≠ "abc" ++ streamErrorText "boom" := by
  refine ⟨rfl, by decide, by decide⟩

/-- C3 (amended): if the generation stream raises mid-consumption, the
composer returns exactly the fixed error notice built from the exception,
regardless of the chunks already accumulated (the partial output is
discarded) and without consuming the remaining events. -/
theorem c3_stream_error_replaces_output (chunks : List String) (e : String)
    (rest : List StreamEvent) (acc : String) :
    consumeStream
        (chunks.map StreamEvent.chunk ++ StreamEvent.raise e :: rest) acc
      = streamErrorText e := by
  induction chunks generalizing acc with
  | nil => rfl
  | cons c cs ih => simpa [consumeStream] using ih (acc ++ c)

/-- C4, counterexample to the claim as stated: for the unregistered tool
name `"search_web"`, `execute_function` returns Python `None`, not a
`ToolResult{status: Error, message: "unknown tool"}`. -/
theorem c4_counterexample :
    execute_function sampleEnv ghostCall "hi" none none = ToolOutcome.pyNone
    ∧ execute_function sampleEnv ghostCall "hi" none none
        ≠ ToolOutcome.errorRes "unknown tool" := by
  refine ⟨rfl, by decide⟩

/-- C4 (amended): for every tool-call request whose name is not one of the
three registered tools, `execute_function` falls through every branch and
returns `None`; it neither raises nor builds an error result. -/
theorem c4_unknown_tool_returns_none (env : ToolEnv) (fc : FunctionCall)
    (uq : String) (klr : Option KnowledgeResult) (sfr : Option SelectResult)
    (h1 : fc.name ≠ "get_knowledge_level")
    (h2 : fc.name ≠ "select_relevant_files")
    (h3 : fc.name ≠ "generate_detailed_response") :
    execute_function env fc uq klr sfr = ToolOutcome.pyNone := by
  simp [execute_function, h1, h2, h3]

/-- Witness for C4's amended theorem at the concrete call `ghostCall`. -/
theorem c4_unknown_tool_returns_none_witness :
    execute_function sampleEnv ghostCall "hi" none none
      = ToolOutcome.pyNone :=
  c4_unknown_tool_returns_none sampleEnv ghostCall "hi" none none
    (by decide) (by decide) (by decide)

/-- C5, counterexample to the claim as stated: looking up `"algebra"` in an
empty store maps it to level `"unknown"` with the fixed Chinese not-found
message naming the subject, which is not the literal string `"<no data>"`. -/
theorem c5_counterexample :
    (get_knowledge_level ⟨none, []⟩ ["algebra"]).subjectsInfo
      = [("algebra", ⟨"unknown", notFoundDescription "algebra"⟩)]
    ∧ notFoundDescription "algebra" ≠ "<no data>" := by
  refine ⟨rfl, by decide⟩

/-- C5 (amended): the knowledge-level lookup never fails and returns one
`{level, detailed_description}` entry per requested subject: a subject
absent from the store maps to level `"unknown"` with the not-found message
`"未找到关于 <subject> 的知识水平信息"`, a present subject maps to its
stored record (with defaults), and no entry is produced for a subject that
was not requested. -/
theorem c5_knowledge_lookup_total (data : MemoryData)
    (subjects : List String) :
    ((∀ s ∈ subjects, dictFind data.knowledgeLevels s = none →
        (s, (⟨"unknown", notFoundDescription s⟩ : SubjectInfo))
          ∈ (get_knowledge_level data subjects).subjectsInfo)
    ∧ (∀ s ∈ subjects, ∀ kr, dictFind data.knowledgeLevels s = some kr →
        (s, (⟨kr.level.getD "unknown", kr.detailedDescription.getD ""⟩ :
            SubjectInfo))
          ∈ (get_knowledge_level data subjects).subjectsInfo)
    ∧ (∀ p ∈ (get_knowledge_level data subjects).subjectsInfo,
        p.1 ∈ subjects)
    ∧ (get_knowledge_level data subjects).subjectsInfo.length
        = subjects.length) := by
  refine ⟨?_, ?_, ?_, ?_⟩
  · intro s hs h
    have he : subjectEntry data s
        = (s, (⟨"unknown", notFoundDescription s⟩ : SubjectInfo)) := by
      unfold subjectEntry
      rw [h]
    exact he ▸ List.mem_map_of_mem (subjectEntry data) hs
  · intro s hs kr h
    have he : subjectEntry data s
        = (s, (⟨kr.level.getD "unknown",
            kr.detailedDescription.getD ""⟩ : SubjectInfo)) := by
      unfold subjectEntry
      rw [h]
    exact he ▸ List.mem_map_of_mem (subjectEntry data) hs
  · intro p hp
    rcases List.mem_map.1 hp with ⟨s, hs, rfl⟩
    rw [subjectEntry_fst]
    exact hs
  · exact List.length_map subjects (subjectEntry data)

/-- Witness for C5's amended theorem: requesting `["algebra", "astronomy"]`
against `sampleMemory` (which stores only astronomy) yields the not-found
entry for algebra and the stored record for astronomy. -/
theorem c5_knowledge_lookup_total_witness :
    ("algebra", (⟨"unknown", notFoundDescription "algebra"⟩ : SubjectInfo))
      ∈ (get_knowledge_level sampleMemory ["algebra", "astronomy"]).subjectsInfo
    ∧ ("astronomy", (⟨"beginner", "基础阶段"⟩ : SubjectInfo))
      ∈ (get_knowledge_level sampleMemory ["algebra", "astronomy"]).subjectsInfo := by
  constructor
  · exact (c5_knowledge_lookup_total sampleMemory ["algebra", "astronomy"]).1
      "algebra" (by decide) (by decide)
  · exact (c5_knowledge_lookup_total sampleMemory
        ["algebra", "astronomy"]).2.1
      "astronomy" (by decide) ⟨some "beginner", some "基础阶段"⟩ (by decide)

/-- C10 (confirmed): when the terminal call omits `use_knowledge_level` and
`use_selected_files`, both default to `False`; the composer receives `None`
for the knowledge info and the file list even when the session holds
accumulated results, and the returned payload reports both flags `False`
with `response_length` equal to the length of the response string. -/
theorem c10_terminal_defaults (env : ToolEnv) (uq : String)
    (q : Option String) (klr : Option KnowledgeResult)
    (sfr : Option SelectResult) :
    execute_function env
        { name := "generate_detailed_response", subjects := none
          fileTitles := none, userQuery := q
          useKnowledgeLevel := none, useSelectedFiles := none } uq klr sfr
      = ToolOutcome.generateRes (env.generator (q.getD uq) none none)
          false false (env.generator (q.getD uq) none none).length := by
  rfl

/-- C2, counterexample to the claim as stated: against the
always-non-terminal stub client, the run does end with the iteration-limit
warning after exactly `max_iterations = 10` iterations, but the decision
engine has then been called `maxIterations + 1 = 11` times — the initial
user-query send plus one `chat.send_message(function_responses)` at the end
of each of the 10 loop bodies, the last of which happens after the 10th
iteration's batch and has its response discarded.  The warning is therefore
returned in addition to, not instead of, a further decision-engine call. -/
theorem c2_counterexample :
    (process_query_with_chat sampleEnv stubNonTerminalClient "你好").answer
        = iterationLimitText
    ∧ (process_query_with_chat sampleEnv stubNonTerminalClient
        "你好").iterationsRun = maxIterations
    ∧ (process_query_with_chat sampleEnv stubNonTerminalClient
        "你好").decisionCalls = maxIterations + 1 := by
  refine ⟨by decide, by decide, by decide⟩

/-- C2 (amended): the `iteration` counter of `process_query_with_chat`
increments by exactly one per decision round-trip and never exceeds
`max_iterations = 10` for any decision client; against a client that always
returns non-terminal tool calls, the loop stops after exactly
`max_iterations` iterations with the fixed iteration-limit warning and
never loops indefinitely — but only after `max_iterations + 1` total
decision calls (the initial query plus one send per iteration): the body
sends the function responses to the engine before the guard fails, so the
warning does not replace that final call, whose response is discarded. -/
theorem c2_iteration_ceiling :
    (∀ (env : ToolEnv) (client : Nat → ModelResponse) (uq : String),
      (process_query_with_chat env client uq).iterationsRun ≤ maxIterations)
    ∧ (∀ (env : ToolEnv) (client : Nat → ModelResponse) (uq : String),
      (∀ n, (client n).functionCalls ≠ []
        ∧ ∀ fc ∈ (client n).functionCalls,
            fc.name ≠ "generate_detailed_response") →
      (process_query_with_chat env client uq).answer = iterationLimitText
      ∧ (process_query_with_chat env client uq).iterationsRun
          = maxIterations
      ∧ (process_query_with_chat env client uq).decisionCalls
          = maxIterations + 1) := by
  constructor
  · intro env client uq
    have h := chatLoop_iterations_le env client uq maxIterations 0 1
      (client 0) none none []
    simpa [process_query_with_chat] using h
  · intro env client uq hstub
    have h := chatLoop_stub env client uq hstub maxIterations 0 1 (client 0)
      none none [] (hstub 0).1 (hstub 0).2
    refine ⟨h.1, ?_, ?_⟩
    · have h2 := h.2.1
      simpa [process_query_with_chat] using h2
    · have h3 := h.2.2
      show (process_query_with_chat env client uq).decisionCalls
        = maxIterations + 1
      unfold process_query_with_chat
      omega

/-- Witness for C2's amended theorem: against the always-non-terminal stub
client, the run ends with the iteration-limit warning after exactly
`max_iterations` iterations and `max_iterations + 1` decision calls. -/
theorem c2_iteration_ceiling_witness :
    (process_query_with_chat sampleEnv stubNonTerminalClient "你好").answer
        = iterationLimitText
    ∧ (process_query_with_chat sampleEnv stubNonTerminalClient
        "你好").iterationsRun = maxIterations
    ∧ (process_query_with_chat sampleEnv stubNonTerminalClient
        "你好").decisionCalls = maxIterations + 1 := by
  refine c2_iteration_ceiling.2 sampleEnv stubNonTerminalClient "你好" ?_
  intro n
  constructor
  · show ([knowledgeCall] : List FunctionCall) ≠ []
    decide
  · show ∀ fc ∈ ([knowledgeCall] : List FunctionCall),
      fc.name ≠ "generate_detailed_response"
    decide

/-- C8, counterexample to the claim as stated: when the decision response
has both empty text and no tool calls, `process_query_with_chat` returns
the fixed apology message, which is not the empty final answer (and not the
response's text verbatim). -/
theorem c8_counterexample :
    (process_query_with_chat sampleEnv stubEmptyClient "hi").answer
        = noReplyText
    ∧ noReplyText ≠ ""
    ∧ noReplyText ≠ (stubEmptyClient 0).text := by
  refine ⟨by decide, by decide, by decide⟩

/-- C8 (amended): when the decision response carries no tool-call requests,
the loop terminates without executing any tool; it returns the response's
text verbatim when that text is non-empty, but when the text is empty it
returns the fixed fallback `"抱歉，我无法生成回复。"` rather than an empty
final answer (in `process_query_for_gradio` the final answer is left
empty in that case). -/
theorem c8_no_toolcalls_text (env : ToolEnv)
    (client : Nat → ModelResponse) (uq : String)
    (h : (client 0).functionCalls = []) :
    ((client 0).text ≠ "" →
      (process_query_with_chat env client uq).answer = (client 0).text)
    ∧ ((client 0).text = "" →
      (process_query_with_chat env client uq).answer = noReplyText)
    ∧ (process_query_with_chat env client uq).executed = [] := by
  have hrun : process_query_with_chat env client uq
      = ⟨if (client 0).text = "" then noReplyText else (client 0).text,
         1, 1, []⟩ := by
    show chatLoop env client uq (9 + 1) 0 1 (client 0) none none [] = _
    simp only [chatLoop, if_pos h]
  refine ⟨?_, ?_, by rw [hrun]⟩
  · intro ht
    rw [hrun]
    simp [ht]
  · intro ht
    rw [hrun]
    simp [ht]

/-- Witness for C8's amended theorem: a response with text `"你好"` and no
tool calls is returned verbatim; one with empty text yields the fallback. -/
theorem c8_no_toolcalls_text_witness :
    (process_query_with_chat sampleEnv stubTextClient "hi").answer = "你好"
    ∧ (process_query_with_chat sampleEnv stubEmptyClient "hi").answer
        = noReplyText :=
  ⟨(c8_no_toolcalls_text sampleEnv stubTextClient "hi" (by decide)).1
      (by decide),
   (c8_no_toolcalls_text sampleEnv stubEmptyClient "hi" (by decide)).2.1
      (by decide)⟩

/-- C1, counterexample to the claim as stated: in
`process_query_for_gradio`, a batch `[non-terminal A, terminal,
non-terminal B]` executes B as well — B is dispatched to
`execute_function` even though it follows the terminal call. -/
theorem c1_counterexample :
    selectCall ∈ (processBatchGradio sampleEnv "太阳的内部结构"
      [knowledgeCall, terminalCall, selectCall] gradioInit).state.executed := by
  decide

/-- C1 (amended): for a decision batch `[A, terminal, B]` with A, B
non-terminal, `process_query_with_chat` (like `process_query` in main.py)
executes A and the terminal call only — B is skipped — and returns the
terminal payload's response as the final answer; `process_query_for_gradio`
executes the whole batch including B, but still stops after the batch
(`terminalFired`) and exposes the same terminal response as the final
answer. -/
theorem c1_terminal_short_circuit (env : ToolEnv)
    (client : Nat → ModelResponse) (uq : String) (A T B : FunctionCall)
    (hA : A.name ≠ "generate_detailed_response")
    (hB : B.name ≠ "generate_detailed_response")
    (hT : T.name = "generate_detailed_response")
    (hc : (client 0).functionCalls = [A, T, B]) :
    ∃ a,
      (processBatchWithChat env uq [A, T, B] none none [] []).executed
          = [A, T]
      ∧ (processBatchWithChat env uq [A, T, B] none none
          [] []).terminalAnswer = some a
      ∧ (process_query_with_chat env client uq).answer = a
      ∧ (process_query_with_chat env client uq).executed = [A, T]
      ∧ (processBatchGradio env uq [A, T, B] gradioInit).state.executed
          = [A, T, B]
      ∧ (processBatchGradio env uq [A, T, B] gradioInit).terminalFired
          = true
      ∧ (processBatchGradio env uq [A, T, B]
          gradioInit).state.finalResponse = a := by
  have hbatch : processBatchWithChat env uq [A, T, B] none none [] []
      = ⟨[A, T],
         some (terminalText (execute_function env T uq
           (stepState env uq (none, none) A).1
           (stepState env uq (none, none) A).2)),
         (stepState env uq (none, none) A).1,
         (stepState env uq (none, none) A).2,
         [execute_function env A uq none none]⟩ := by
    rw [processBatchWithChat_cons_nonterminal env uq A [T, B] none none
      [] [] hA]
    rw [processBatchWithChat_cons_terminal env uq T [B] _ _ _ _ hT]
    rfl
  have hgradio : (processBatchGradio env uq [A, T, B] gradioInit).state
      = gradioStep env uq
          { klr := (stepState env uq (none, none) A).1
            sfr := (stepState env uq (none, none) A).2
            finalResponse := terminalText (execute_function env T uq
              (stepState env uq (none, none) A).1
              (stepState env uq (none, none) A).2)
            executed := [A, T] } B := by
    show ([A, T, B].foldl (gradioStep env uq) gradioInit) = _
    rw [List.foldl_cons, List.foldl_cons, List.foldl_cons, List.foldl_nil]
    rw [gradioStep_nonterminal env uq gradioInit A hA]
    rw [gradioStep_terminal env uq _ T hT]
    rfl
  refine ⟨terminalText (execute_function env T uq
      (stepState env uq (none, none) A).1
      (stepState env uq (none, none) A).2),
    ?_, ?_, ?_, ?_, ?_, ?_, ?_⟩
  · rw [hbatch]
  · rw [hbatch]
  · show (chatLoop env client uq (9 + 1) 0 1 (client 0) none none
      []).answer = _
    rw [chatLoop]
    rw [if_neg (by rw [hc]; exact fun hx => List.noConfusion hx)]
    rw [hc, hbatch]
  · show (chatLoop env client uq (9 + 1) 0 1 (client 0) none none
      []).executed = _
    rw [chatLoop]
    rw [if_neg (by rw [hc]; exact fun hx => List.noConfusion hx)]
    rw [hc, hbatch]
  · rw [hgradio, gradioStep_nonterminal env uq _ B hB]
    rfl
  · show ([A, T, B].any
      (fun fc => fc.name == "generate_detailed_response")) = true
    simp [hT]
  · rw [hgradio, gradioStep_nonterminal env uq _ B hB]

/-- Witness for C1's amended theorem at the concrete batch
`[knowledgeCall, terminalCall, selectCall]`. -/
theorem c1_terminal_short_circuit_witness :
    ∃ a,
      (processBatchWithChat sampleEnv "你好"
          [knowledgeCall, terminalCall, selectCall] none none [] []).executed
          = [knowledgeCall, terminalCall]
      ∧ (processBatchWithChat sampleEnv "你好"
          [knowledgeCall, terminalCall, selectCall] none none
          [] []).terminalAnswer = some a
      ∧ (process_query_with_chat sampleEnv stubBatchClient "你好").answer = a
      ∧ (process_query_with_chat sampleEnv stubBatchClient "你好").executed
          = [knowledgeCall, terminalCall]
      ∧ (processBatchGradio sampleEnv "你好"
          [knowledgeCall, terminalCall, selectCall]
          gradioInit).state.executed
          = [knowledgeCall, terminalCall, selectCall]
      ∧ (processBatchGradio sampleEnv "你好"
          [knowledgeCall, terminalCall, selectCall]
          gradioInit).terminalFired = true
      ∧ (processBatchGradio sampleEnv "你好"
          [knowledgeCall, terminalCall, selectCall]
          gradioInit).state.finalResponse = a :=
  c1_terminal_short_circuit sampleEnv stubBatchClient "你好"
    knowledgeCall terminalCall selectCall
    (by decide) (by decide) (by decide) rfl

end HyperKnow
